import Mathlib

/-!
A verification development for `src/GetbankCode.py`.

The program captures four rectangular regions of an application window,
preprocesses each (crop, scale to a target height with a width cap, optional
blur, binarization, morphological opening), runs OCR on each, and assembles the
four recognized texts into one line joined by full-width colons, applying an
ordered correction table and stripping blank lines.

The embedding below models, faithfully to the source:
* the text primitives the script uses (`str.isdigit`-filtering via
  `filter(str.isdigit, s)`, `str.strip`, `str.replace`, `str.splitlines`,
  blank-line removal) as executable functions on `List Char` / `String`;
* the geometry of `_preprocess_and_ocr` (numpy slice cropping, scaling with
  `target_h = 300`, the `max_w = 4000` clamp, and the places where the OpenCV
  calls raise) with the float arithmetic idealized over `ℚ`;
* the orchestration of `capture_and_ocr` (per-region capture results, the
  sequential OCR loop whose exceptions propagate to the top-level handler, and
  the normalization of the four fields).

External collaborators (the OCR engine, the screen grabber) are abstracted as
oracles; fallible steps return `Except`.
-/

set_option linter.unusedVariables false

namespace GetbankCode

/-- Modelled from the spec and the Python documentation: `str.isspace` is true
exactly for the Unicode whitespace characters (category Zs, Zl, Zp, or
bidirectional class WS, B, S).  This is the complete set used by CPython:
U+0009..U+000D, U+001C..U+001F, U+0020, U+0085, U+00A0, U+1680,
U+2000..U+200A, U+2028, U+2029, U+202F, U+205F, U+3000. -/
def pyIsspace (c : Char) : Bool :=
  decide ((0x9 ≤ c.toNat ∧ c.toNat ≤ 0xd) ∨ (0x1c ≤ c.toNat ∧ c.toNat ≤ 0x1f) ∨
    c.toNat = 0x20 ∨ c.toNat = 0x85 ∨ c.toNat = 0xa0 ∨ c.toNat = 0x1680 ∨
    (0x2000 ≤ c.toNat ∧ c.toNat ≤ 0x200a) ∨ c.toNat = 0x2028 ∨ c.toNat = 0x2029 ∨
    c.toNat = 0x202f ∨ c.toNat = 0x205f ∨ c.toNat = 0x3000)

/-- Modelled from the spec and the Python documentation: `str.isdigit` is true
for characters of Unicode `Numeric_Type` `Decimal` or `Digit` — every decimal
digit (category Nd), but also digit-type characters that are not decimal
digits, such as the superscripts `¹ ² ³` and U+2070/U+2074..U+2079 and the
subscripts U+2080..U+2089.  The encoding covers the ASCII digits, several
representative Nd blocks (Arabic-Indic, extended Arabic-Indic, Devanagari,
Thai, fullwidth) and the super/subscript digits; the remaining Nd blocks
behave the same way and are not exercised by this development. -/
def pyIsdigit (c : Char) : Bool :=
  decide ((0x30 ≤ c.toNat ∧ c.toNat ≤ 0x39) ∨
    c.toNat = 0xb2 ∨ c.toNat = 0xb3 ∨ c.toNat = 0xb9 ∨
    (0x660 ≤ c.toNat ∧ c.toNat ≤ 0x669) ∨ (0x6f0 ≤ c.toNat ∧ c.toNat ≤ 0x6f9) ∨
    (0x966 ≤ c.toNat ∧ c.toNat ≤ 0x96f) ∨ (0xe50 ≤ c.toNat ∧ c.toNat ≤ 0xe59) ∨
    c.toNat = 0x2070 ∨ (0x2074 ≤ c.toNat ∧ c.toNat ≤ 0x2079) ∨
    (0x2080 ≤ c.toNat ∧ c.toNat ≤ 0x2089) ∨ (0xff10 ≤ c.toNat ∧ c.toNat ≤ 0xff19))

/-- Scan step of Python `str.replace` for a non-empty pattern: at each
position, if the pattern is a prefix of the remaining text, emit the
replacement and skip the pattern; otherwise keep one character and continue.
This is exactly CPython's left-to-right non-overlapping replacement.  The
`fuel` argument only makes the recursion structural: every step consumes at
least one character, so fuel equal to the text's length (as supplied by
`pyReplace`) is never exhausted. -/
def replaceCore (old new : List Char) : Nat → List Char → List Char
  | _, [] => []
  | 0, s => s
  | fuel + 1, c :: rest =>
    if old.isPrefixOf (c :: rest) then
      new ++ replaceCore old new fuel (rest.drop (old.length - 1))
    else c :: replaceCore old new fuel rest

/-- Helper for the empty-pattern case of Python `str.replace`: after each
character of the text, a copy of the replacement is inserted. -/
def insertEach (new : List Char) : List Char → List Char
  | [] => []
  | c :: rest => c :: (new ++ insertEach new rest)

/-- Modelled from the Python semantics of `str.replace(old, new)` (used at
line 190 of the source: `ocr_text = ocr_text.replace(wrong, correct)`).
For an empty `old`, CPython inserts `new` at every character boundary —
`"ABC".replace("", "-") == "-A-B-C-"`; otherwise it is the left-to-right
non-overlapping scan `replaceCore`. -/
def pyReplace (s old new : List Char) : List Char :=
  match old with
  | [] => new ++ insertEach new s
  | _ :: _ => replaceCore old new s.length s

/-- `String` wrapper for `pyReplace`, argument order as in `s.replace(old, new)`. -/
def pyReplaceStr (s old new : String) : String :=
  String.mk (pyReplace s.data old.data new.data)

/-- Modelled from the Python semantics of `str.strip()` with no argument
(lines 180/182 of the source): remove leading and trailing whitespace
(`pyIsspace`) characters; interior characters are untouched. -/
def pyStripL (l : List Char) : List Char :=
  (l.dropWhile pyIsspace).rdropWhile pyIsspace

/-- `String` wrapper for `pyStripL`. -/
def pyStripStr (s : String) : String :=
  String.mk (pyStripL s.data)

/-- The line-terminator characters of Python `str.splitlines`:
LF, CR, VT, FF, FS, GS, RS, NEL, LINE SEPARATOR, PARAGRAPH SEPARATOR
(a CR LF pair counts as a single terminator, handled in `pySplitlinesAux`). -/
def isLineBreak (c : Char) : Bool :=
  decide (c = '\n' ∨ c = '\r' ∨ c.toNat = 0xb ∨ c.toNat = 0xc ∨
    (0x1c ≤ c.toNat ∧ c.toNat ≤ 0x1e) ∨ c.toNat = 0x85 ∨
    c.toNat = 0x2028 ∨ c.toNat = 0x2029)

/-- Scanner for Python `str.splitlines` (line 193 of the source:
`lines = ocr_text.splitlines()`).  `acc` holds the current line reversed.
A `"\r\n"` pair is one terminator (a lone `'\r'` falls to the third arm,
where it is a terminator by itself); at the end of input the pending line is
emitted only if non-empty, so `"".splitlines() == []` and
`"a\n".splitlines() == ["a"]`. -/
def pySplitlinesAux : List Char → List Char → List (List Char)
  | [], acc => if acc.isEmpty then [] else [acc.reverse]
  | '\r' :: '\n' :: rest, acc => acc.reverse :: pySplitlinesAux rest []
  | c :: rest, acc =>
    if isLineBreak c then acc.reverse :: pySplitlinesAux rest []
    else pySplitlinesAux rest (c :: acc)

/-- Python `str.splitlines`. -/
def pySplitlines (l : List Char) : List (List Char) :=
  pySplitlinesAux l []

/-- Tail part of `"\n".join(lines)`: a `'\n'` separator before each
remaining line. -/
def joinNLTail : List (List Char) → List Char
  | [] => []
  | m :: ms => '\n' :: (m ++ joinNLTail ms)

/-- `"\n".join(lines)` on character lists (line 195 of the source). -/
def joinNL : List (List Char) → List Char
  | [] => []
  | m :: ms => m ++ joinNLTail ms

/-- A line is kept by the blank-line filter iff `line.strip()` is truthy,
i.e. the line contains at least one non-whitespace character (line 194 of the
source: `[line for line in lines if line.strip()]`). -/
def lineKeep (l : List Char) : Bool :=
  l.any fun c => !(pyIsspace c)

/-- Lines 193–195 of the source: split into lines, drop blank (empty or
whitespace-only) lines, and re-join with `"\n"`. -/
def blankStripL (l : List Char) : List Char :=
  joinNL ((pySplitlines l).filter lineKeep)

/-- `String` wrapper for `blankStripL`. -/
def blankStrip (t : String) : String :=
  String.mk (blankStripL t.data)

/-- Line 179/181 of the source: `"".join(filter(str.isdigit, text))`. -/
def digitFilter (s : String) : String :=
  String.mk (s.data.filter pyIsdigit)

/-- The four capture regions of the program. -/
inductive Region
  | BankCode
  | BankName
  | BranchCode
  | BranchName
deriving DecidableEq

/-- `ocr_results.get(key, "")`: a missing region's raw text is the empty
string (lines 179–182 of the source). -/
def fieldText (res : Region → Option String) (r : Region) : String :=
  (res r).getD ""

/-- Line 184 of the source: the f-string
`f"{bank_code}：{bank_name}：{branch_code}：{branch_name}"` after the
per-field cleanup — digit-filtering the two code fields and stripping the two
name fields. -/
def joinedLine (res : Region → Option String) : String :=
  digitFilter (fieldText res Region.BankCode) ++ "：" ++
    pyStripStr (fieldText res Region.BankName) ++ "：" ++
    digitFilter (fieldText res Region.BranchCode) ++ "：" ++
    pyStripStr (fieldText res Region.BranchName)

/-- Lines 189–190 of the source: fold the ordered correction table over the
assembled text with Python `str.replace`, one pair after the other. -/
def applyCorrections (t : String) (corr : List (String × String)) : String :=
  corr.foldl (fun s p => pyReplaceStr s p.1 p.2) t

/-- Lines 178–195 of the source: the whole normalization pass — per-field
cleanup, join with full-width colons, correction pass, blank-line strip. -/
def normalizeFields (res : Region → Option String) (corr : List (String × String)) : String :=
  blankStrip (applyCorrections (joinedLine res) corr)

/-- The length of the Python slice `x[a:b]` (step 1) of a sequence of length
`n`: each bound is counted from the end when negative and clamped into
`[0, n]`; the slice is empty when the bounds cross.  Numpy array slicing
follows the same rule and never raises. -/
def pySliceLen (n : ℕ) (a b : ℤ) : ℕ :=
  let lo : ℤ := if a < 0 then max ((n : ℤ) + a) 0 else min a (n : ℤ)
  let hi : ℤ := if b < 0 then max ((n : ℤ) + b) 0 else min b (n : ℤ)
  (hi - lo).toNat

/-- The per-region crop margins (`crop_settings` of the source, read with
`config.getint`, hence integers). -/
structure CropSettings where
  top : ℤ
  bottom : ℤ
  left : ℤ
  right : ℤ
deriving DecidableEq

/-- Height after line 23 of the source, `gray_image[top:h-bottom, left:w-right]`. -/
def croppedH (h : ℕ) (crop : CropSettings) : ℕ :=
  pySliceLen h crop.top ((h : ℤ) - crop.bottom)

/-- Width after line 23 of the source. -/
def croppedW (w : ℕ) (crop : CropSettings) : ℕ :=
  pySliceLen w crop.left ((w : ℤ) - crop.right)

/-- The value of `int(w * (300 / h))` under exact rational arithmetic.
This is NOT asserted to be the program's value: the source computes
`scale = 300 / h` and the products in IEEE-754 doubles, whose rounding can
shift the truncated result by one (e.g. `int(281 * (300 / 281))` is `299` in
CPython, not `300`).  It is used only to instantiate the abstract float
evaluation `ScalingFloats` at inputs where every intermediate double is
exactly representable, where the two coincide. -/
def scaledWidth (hc wc : ℕ) : ℕ :=
  (⌊(wc : ℚ) * ((300 : ℚ) / (hc : ℚ))⌋).toNat

/-- The value of `int(h * (300 / h))` under exact rational arithmetic (see
the caveat on `scaledWidth`: the program's double arithmetic may give `299`
instead of `300`). -/
def scaledHeight (hc : ℕ) : ℕ :=
  (⌊(hc : ℚ) * ((300 : ℚ) / (hc : ℚ))⌋).toNat

/-- The value of `int(sh * (4000 / sw))` under exact rational arithmetic
(see the caveat on `scaledWidth`). -/
def clampedHeight (sh sw : ℕ) : ℕ :=
  (⌊(sh : ℚ) * ((4000 : ℚ) / (sw : ℚ))⌋).toNat

/-- The three scaling quantities of lines 30–38 of the source —
`scaled_h = int(h * scale)`, `scaled_w = int(w * scale)` with
`scale = 300 / h`, and `final_h = int(scaled_h * (4000 / scaled_w))` — are
computed in IEEE-754 double arithmetic, whose exact rounding behaviour is
outside this embedding.  The preprocessing model is therefore parameterized
by the values these truncations take: theorems about the program quantify
over every such evaluation, so they hold whatever the double rounding does.
`scaledH` takes the cropped height; `scaledW` the cropped height and width;
`clampH` the computed scaled height and scaled width. -/
structure ScalingFloats where
  scaledH : ℕ → ℕ
  scaledW : ℕ → ℕ → ℕ
  clampH : ℕ → ℕ → ℕ

/-- The exact-rational-arithmetic instance of `ScalingFloats`.  It agrees
with the program's IEEE evaluation at every input where each intermediate
double (`300 / h`, the products, `4000 / scaled_w`) is exactly
representable; concrete evaluations below use it only at such inputs and
justify exactness in their doc comments. -/
def exactScaling : ScalingFloats where
  scaledH := scaledHeight
  scaledW := scaledWidth
  clampH := clampedHeight

/-- Outcome of the preprocessing stage: either the early empty-text return of
line 29 (`if h == 0: return ""`), or a binary image with the given height and
width. -/
inductive PreOut
  | emptyText
  | image (h w : ℕ)
deriving DecidableEq

/-- Lines 20–58 of the source (`_preprocess_and_ocr` up to the OCR call),
tracking image dimensions and the places where the pipeline raises, for an
arbitrary evaluation `F` of the double-precision scaling arithmetic:
* numpy slice cropping never raises;
* `cv2.resize` asserts a non-empty source (`!ssize.empty()`) and a non-empty
  destination size, so a zero cropped width or a zero computed scaled
  dimension raises `cv2.error`;
* `np.ones((k, k))` raises `ValueError` for a negative kernel size (an empty
  `0×0` kernel makes `cv2.morphologyEx` fall back to its default `3×3`
  element, without raising);
* `cv2.GaussianBlur`, `cv2.threshold`, `cv2.adaptiveThreshold` and
  `cv2.morphologyEx` preserve the image dimensions and do not raise on a
  non-empty single-channel image, so `method` and `useBlur` do not affect the
  result's dimensions. -/
def preprocessResult (F : ScalingFloats) (h w : ℕ) (method : String) (useBlur : Bool)
    (crop : CropSettings) (k : ℤ) : Except String PreOut :=
  let hc := croppedH h crop
  let wc := croppedW w crop
  if hc = 0 then Except.ok PreOut.emptyText
  else
    let sw := F.scaledW hc wc
    let finalW := if 4000 < sw then 4000 else sw
    let finalH := if 4000 < sw then F.clampH (F.scaledH hc) sw else F.scaledH hc
    if wc = 0 then Except.error "cv2.error: resize: empty source image"
    else if finalW = 0 ∨ finalH = 0 then Except.error "cv2.error: resize: empty dsize"
    else if k < 0 then Except.error "ValueError: negative dimensions are not allowed"
    else Except.ok (PreOut.image finalH finalW)

/-- A captured image, abstracted to its pixel-grid dimensions (grayscale
conversion at line 18 preserves them; the claims under study only concern
dimensions, emptiness and raising). -/
structure Img where
  h : ℕ
  w : ℕ
deriving DecidableEq

/-- Lines 14–61 of the source, `_preprocess_and_ocr`: `None` input returns
`""` immediately; a zero cropped height returns `""` before any further
processing; otherwise the preprocessed binary image is handed to the OCR
engine, abstracted as an oracle `ocr` from the image dimensions to its output
text (language model and psm are fixed per call site and folded into the
oracle). -/
def preprocessAndOcr (F : ScalingFloats) (img : Option Img) (method : String)
    (useBlur : Bool) (crop : CropSettings) (k : ℤ) (ocr : ℕ → ℕ → String) :
    Except String String :=
  match img with
  | none => Except.ok ""
  | some i =>
    match preprocessResult F i.h i.w method useBlur crop k with
    | Except.error e => Except.error e
    | Except.ok PreOut.emptyText => Except.ok ""
    | Except.ok (PreOut.image fh fw) => Except.ok (ocr fh fw)

/-- Record one region's OCR text in the result mapping (the dict assignment
`ocr_results[key] = ...` of lines 164/168/172/176). -/
def updateResult (res : Region → Option String) (r : Region) (t : String) :
    Region → Option String :=
  fun x => if x = r then some t else res x

/-- One step of the OCR loop of lines 159–176: if the region was captured,
run its preprocess-and-recognize pipeline; an exception propagates (there is
no per-region handler around the OCR calls — only the capture loop of lines
146–157 has one). -/
def stepRegion (caps : Region → Option Img) (pl : Region → Img → Except String String)
    (r : Region) (res : Region → Option String) : Except String (Region → Option String) :=
  match caps r with
  | none => Except.ok res
  | some img => (pl r img).map (updateResult res r)

/-- Lines 159–176 of the source: the four regions are processed sequentially
in the fixed order BankCode, BankName, BranchCode, BranchName; the first
exception aborts the remaining regions. -/
def extractTexts (caps : Region → Option Img)
    (pl : Region → Img → Except String String) : Except String (Region → Option String) := do
  let r1 ← stepRegion caps pl Region.BankCode fun _ => none
  let r2 ← stepRegion caps pl Region.BankName r1
  let r3 ← stepRegion caps pl Region.BranchCode r2
  stepRegion caps pl Region.BranchName r3

/-- The core of `capture_and_ocr` after the capture loop (lines 159–195):
extraction then normalization, all inside the single top-level
`try`/`except`, so an exception anywhere yields an error for the whole run
and no final text.  `caps` is the per-region capture outcome (a region whose
grab failed, or that has no configured rectangle, is absent); `pl` is the
per-region preprocess-and-recognize pipeline. -/
def captureAndOcrCore (caps : Region → Option Img)
    (pl : Region → Img → Except String String)
    (corr : List (String × String)) : Except String String :=
  (extractTexts caps pl).map fun res => normalizeFields res corr

/-- `true` iff a fallible step completed without raising. -/
def exceptOk {α : Type} : Except String α → Bool
  | Except.ok _ => true
  | Except.error _ => false

/-- The per-field cleanup of lines 179–182: code fields are digit-filtered,
name fields are stripped.  Used to state idempotence of the normalization. -/
def fieldNormalize : Region → String → String
  | Region.BankCode, s => digitFilter s
  | Region.BranchCode, s => digitFilter s
  | Region.BankName, s => pyStripStr s
  | Region.BranchName, s => pyStripStr s

/-- The raw-text mapping obtained by feeding each field's own normalized text
back in: the input of a second normalization run over the first run's
per-field output. -/
def renormalizedInput (res : Region → Option String) : Region → Option String :=
  fun r => some (fieldNormalize r (fieldText res r))

/-! ### Supporting lemmas -/

/-- `int(w * (300 / h))` over exact arithmetic is the integer quotient
`300 * w / h` (both sides are `0` when `h = 0`, since `ℚ` division by zero
is zero and so is `Nat` division). -/
theorem scaledWidth_eq (hc wc : ℕ) : scaledWidth hc wc = 300 * wc / hc := by
  unfold scaledWidth
  rw [mul_div_assoc', show ((wc : ℚ) * 300) = ((300 * wc : ℕ) : ℚ) by push_cast; ring,
    Rat.floor_natCast_div_natCast, ← Int.natCast_div, Int.toNat_natCast]

/-- `int(h * (300 / h))` over exact arithmetic is `300 * h / h`. -/
theorem scaledHeight_eq (hc : ℕ) : scaledHeight hc = 300 * hc / hc := by
  unfold scaledHeight
  rw [mul_div_assoc', show ((hc : ℚ) * 300) = ((300 * hc : ℕ) : ℚ) by push_cast; ring,
    Rat.floor_natCast_div_natCast, ← Int.natCast_div, Int.toNat_natCast]

/-- For a positive cropped height the scaled height is exactly the target
height `300`. -/
theorem scaledHeight_of_pos (hc : ℕ) (h : hc ≠ 0) : scaledHeight hc = 300 := by
  rw [scaledHeight_eq, Nat.mul_div_cancel]
  exact Nat.pos_of_ne_zero h

/-- `int(scaled_h * (4000 / scaled_w))` over exact arithmetic is
`4000 * scaled_h / scaled_w`. -/
theorem clampedHeight_eq (sh sw : ℕ) : clampedHeight sh sw = 4000 * sh / sw := by
  unfold clampedHeight
  rw [mul_div_assoc', show ((sh : ℚ) * 4000) = ((4000 * sh : ℕ) : ℚ) by push_cast; ring,
    Rat.floor_natCast_div_natCast, ← Int.natCast_div, Int.toNat_natCast]

/-- A zero cropped width scales to a zero width. -/
theorem scaledWidth_zero (hc : ℕ) : scaledWidth hc 0 = 0 := by
  rw [scaledWidth_eq]
  simp

/-- The digit filter is idempotent: filtering keeps only characters that
already pass the filter. -/
theorem digitFilter_idem (s : String) : digitFilter (digitFilter s) = digitFilter s := by
  simp [digitFilter, List.filter_filter]

/-- The head of `dropWhile p l`, if any, fails `p`; so a second `dropWhile`
is the identity on it (restatement of `List.dropWhile_idempotent` for a
prefix of the result). -/
theorem dropWhile_of_prefix_eq_self (p : Char → Bool) (l B : List Char)
    (hpre : B <+: l.dropWhile p) : B.dropWhile p = B := by
  cases hB0 : B with
  | nil => rfl
  | cons b B2 =>
    have h := List.head?_dropWhile_not p l
    rcases hpre with ⟨t, ht⟩
    rw [hB0] at ht
    rw [← ht] at h
    simp only [List.cons_append, List.head?_cons] at h
    simp [List.dropWhile_cons, h]

/-- Python `strip` is idempotent. -/
theorem pyStripL_idem (l : List Char) : pyStripL (pyStripL l) = pyStripL l := by
  unfold pyStripL
  have hB : ((l.dropWhile pyIsspace).rdropWhile pyIsspace).dropWhile pyIsspace =
      (l.dropWhile pyIsspace).rdropWhile pyIsspace :=
    dropWhile_of_prefix_eq_self pyIsspace l _ (List.rdropWhile_prefix _ _)
  rw [hB, List.rdropWhile_idempotent]

/-- `String` version of `pyStripL_idem`. -/
theorem pyStripStr_idem (s : String) : pyStripStr (pyStripStr s) = pyStripStr s := by
  simp [pyStripStr, pyStripL_idem]

/-- Scanner equation: a non-terminator character is accumulated into the
current line. -/
theorem splitlinesAux_cons_not_break (c : Char) (rest acc : List Char)
    (h1 : isLineBreak c = false) :
    pySplitlinesAux (c :: rest) acc = pySplitlinesAux rest (c :: acc) := by
  have hc : c ≠ '\r' := by rintro rfl; simp [isLineBreak] at h1
  rw [pySplitlinesAux.eq_3]
  · simp [h1]
  · intro _ h _
    exact hc h

/-- Scanner equation: a terminator ends the current line, provided it does
not start a `"\r\n"` pair. -/
theorem splitlinesAux_cons_break_of_not_crlf (c : Char) (rest acc : List Char)
    (h1 : isLineBreak c = true)
    (hne : ∀ rest2 : List Char, c = '\r' → rest = '\n' :: rest2 → False) :
    pySplitlinesAux (c :: rest) acc = acc.reverse :: pySplitlinesAux rest [] := by
  rw [pySplitlinesAux.eq_3]
  · simp [h1]
  · exact hne

/-- Scanner equation: a terminator other than `'\r'` ends the current line. -/
theorem splitlinesAux_cons_break (c : Char) (rest acc : List Char)
    (h1 : isLineBreak c = true) (h2 : c ≠ '\r') :
    pySplitlinesAux (c :: rest) acc = acc.reverse :: pySplitlinesAux rest [] :=
  splitlinesAux_cons_break_of_not_crlf c rest acc h1 (fun _ hc _ => h2 hc)

/-- Scanning a terminator-free chunk only accumulates it. -/
theorem splitlinesAux_append (l : List Char) (hl : ∀ c ∈ l, isLineBreak c = false)
    (rest acc : List Char) :
    pySplitlinesAux (l ++ rest) acc = pySplitlinesAux rest (l.reverse ++ acc) := by
  induction l generalizing acc with
  | nil => simp
  | cons c l ih =>
    have hc : isLineBreak c = false := hl c (by simp)
    rw [List.cons_append, splitlinesAux_cons_not_break c _ acc hc,
      ih (fun d hd => hl d (by simp [hd])) (c :: acc)]
    simp

/-- Scanning the `'\n'`-joined tail of a list of non-empty, terminator-free
lines, with a non-empty pending line, recovers the pending line followed by
the tail's lines. -/
theorem splitlinesAux_joinNLTail (ls : List (List Char)) (acc : List Char)
    (hacc : acc ≠ []) (h1 : ∀ m ∈ ls, m ≠ [])
    (h2 : ∀ m ∈ ls, ∀ c ∈ m, isLineBreak c = false) :
    pySplitlinesAux (joinNLTail ls) acc = acc.reverse :: ls := by
  induction ls generalizing acc with
  | nil =>
    rw [joinNLTail]
    cases acc with
    | nil => exact absurd rfl hacc
    | cons a as => simp [pySplitlinesAux]
  | cons m ls ih =>
    rw [joinNLTail, splitlinesAux_cons_break '\n' _ acc (by simp [isLineBreak]) (by decide),
      splitlinesAux_append m (h2 m (by simp)) _ []]
    rw [List.append_nil, ih m.reverse (by simpa using h1 m (by simp))
      (fun x hx => h1 x (by simp [hx])) (fun x hx => h2 x (by simp [hx]))]
    simp

/-- Splitting the `'\n'`-join of non-empty, terminator-free lines recovers
exactly those lines. -/
theorem splitlines_joinNL (ls : List (List Char)) (h1 : ∀ m ∈ ls, m ≠ [])
    (h2 : ∀ m ∈ ls, ∀ c ∈ m, isLineBreak c = false) :
    pySplitlines (joinNL ls) = ls := by
  cases ls with
  | nil => rfl
  | cons m ls =>
    unfold pySplitlines joinNL
    rw [splitlinesAux_append m (h2 m (by simp)) _ [], List.append_nil,
      splitlinesAux_joinNLTail ls m.reverse (by simpa using h1 m (by simp))
        (fun x hx => h1 x (by simp [hx])) (fun x hx => h2 x (by simp [hx]))]
    simp

/-- Every line produced by the scanner is terminator-free (provided the
pending accumulator is). -/
theorem splitlinesAux_no_break (l acc : List Char)
    (hacc : ∀ c ∈ acc, isLineBreak c = false) :
    ∀ m ∈ pySplitlinesAux l acc, ∀ c ∈ m, isLineBreak c = false := by
  induction l, acc using pySplitlinesAux.induct with
  | case1 acc he =>
    rw [pySplitlinesAux.eq_1, if_pos he]
    simp
  | case2 acc he =>
    rw [pySplitlinesAux.eq_1, if_neg he]
    intro m hm
    simp only [List.mem_singleton] at hm
    subst hm
    intro c hc
    exact hacc c (by simpa using hc)
  | case3 rest acc ih =>
    rw [pySplitlinesAux.eq_2]
    intro m hm
    rcases List.mem_cons.mp hm with h | h
    · subst h
      intro c hc
      exact hacc c (by simpa using hc)
    · exact ih (by simp) m h
  | case4 c rest acc hne hbrk ih =>
    rw [splitlinesAux_cons_break_of_not_crlf c rest acc hbrk
      (fun r2 hc hr => hne r2 hc hr)]
    intro m hm
    rcases List.mem_cons.mp hm with h | h
    · subst h
      intro d hd
      exact hacc d (by simpa using hd)
    · exact ih (by simp) m h
  | case5 c rest acc hne hbrk ih =>
    rw [splitlinesAux_cons_not_break c rest acc (by simpa using hbrk)]
    exact ih (by
      intro d hd
      rcases List.mem_cons.mp hd with h | h
      · subst h
        simpa using hbrk
      · exact hacc d h)

/-- A line kept by the blank-line filter is non-empty. -/
theorem lineKeep_ne_nil (m : List Char) (h : lineKeep m = true) : m ≠ [] := by
  rcases List.any_eq_true.mp h with ⟨c, hc, _⟩
  exact fun hm => by simp [hm] at hc

/-- The blank-line strip is idempotent: its output consists of non-empty,
terminator-free lines that all pass the filter, so splitting it again
recovers exactly the same lines. -/
theorem blankStripL_idem (l : List Char) : blankStripL (blankStripL l) = blankStripL l := by
  unfold blankStripL
  have h1 : ∀ m ∈ (pySplitlines l).filter lineKeep, m ≠ [] := fun m hm =>
    lineKeep_ne_nil m (List.of_mem_filter hm)
  have h2 : ∀ m ∈ (pySplitlines l).filter lineKeep, ∀ c ∈ m, isLineBreak c = false :=
    fun m hm => splitlinesAux_no_break l [] (by simp) m (List.mem_of_mem_filter hm)
  rw [splitlines_joinNL _ h1 h2, List.filter_eq_self.mpr (fun m hm => List.of_mem_filter hm)]

/-- `String` version of `blankStripL_idem`. -/
theorem blankStrip_idem (t : String) : blankStrip (blankStrip t) = blankStrip t := by
  simp [blankStrip, blankStripL_idem]

/-- Length of the boundary-insertion helper: one copy of the replacement per
character of the text. -/
theorem insertEach_length (new t : List Char) :
    (insertEach new t).length = t.length * (1 + new.length) := by
  induction t with
  | nil => simp [insertEach]
  | cons c t ih =>
    simp [insertEach, ih]
    ring

/-- A zero cropped height returns the empty-text sentinel before any image
operation (line 29 of the source), whatever the float arithmetic does. -/
theorem preprocessResult_of_crop_empty (F : ScalingFloats) (h w : ℕ) (m : String) (b : Bool)
    (crop : CropSettings) (k : ℤ) (h0 : croppedH h crop = 0) :
    preprocessResult F h w m b crop k = Except.ok PreOut.emptyText := by
  simp [preprocessResult, h0]

/-- When the computed scaled width is positive and does not exceed the cap
(and the computed scaled height is nonzero), the output is exactly the
computed `scaled_h × scaled_w`. -/
theorem preprocessResult_no_clamp (F : ScalingFloats) (h w : ℕ) (m : String) (b : Bool)
    (crop : CropSettings) (k : ℤ) (h0 : croppedH h crop ≠ 0)
    (hw0 : croppedW w crop ≠ 0) (hsh : F.scaledH (croppedH h crop) ≠ 0)
    (hsw : 1 ≤ F.scaledW (croppedH h crop) (croppedW w crop))
    (hle : F.scaledW (croppedH h crop) (croppedW w crop) ≤ 4000) (hk : 0 ≤ k) :
    preprocessResult F h w m b crop k =
      Except.ok (PreOut.image (F.scaledH (croppedH h crop))
        (F.scaledW (croppedH h crop) (croppedW w crop))) := by
  simp [preprocessResult, h0, hw0, not_lt.mpr hle, hsh, not_lt.mpr hk]
  omega

/-- When the computed scaled width exceeds the cap and the computed clamped
height is nonzero, the output width is exactly `4000` and the output height
is the computed clamped height. -/
theorem preprocessResult_clamp (F : ScalingFloats) (h w : ℕ) (m : String) (b : Bool)
    (crop : CropSettings) (k : ℤ) (h0 : croppedH h crop ≠ 0)
    (hw0 : croppedW w crop ≠ 0)
    (hgt : 4000 < F.scaledW (croppedH h crop) (croppedW w crop))
    (hcz : F.clampH (F.scaledH (croppedH h crop))
      (F.scaledW (croppedH h crop) (croppedW w crop)) ≠ 0) (hk : 0 ≤ k) :
    preprocessResult F h w m b crop k =
      Except.ok (PreOut.image
        (F.clampH (F.scaledH (croppedH h crop))
          (F.scaledW (croppedH h crop) (croppedW w crop))) 4000) := by
  simp [preprocessResult, h0, hw0, hgt, hcz, not_lt.mpr hk]

/-- A zero computed scaled width (in particular a zero cropped width) makes
`cv2.resize` raise: empty source when the crop has no columns, empty
destination size otherwise. -/
theorem preprocessResult_not_ok_of_sw_zero (F : ScalingFloats) (h w : ℕ) (m : String)
    (b : Bool) (crop : CropSettings) (k : ℤ) (h0 : croppedH h crop ≠ 0)
    (hsw : F.scaledW (croppedH h crop) (croppedW w crop) = 0) :
    exceptOk (preprocessResult F h w m b crop k) = false := by
  by_cases hw0 : croppedW w crop = 0
  · simp [preprocessResult, h0, hw0, exceptOk]
  · simp [preprocessResult, h0, hw0, hsw, exceptOk]

/-- When the clamp branch fires and the computed clamped height is zero,
`cv2.resize` raises on an empty destination size. -/
theorem preprocessResult_not_ok_of_clamp_zero (F : ScalingFloats) (h w : ℕ) (m : String)
    (b : Bool) (crop : CropSettings) (k : ℤ) (h0 : croppedH h crop ≠ 0)
    (hgt : 4000 < F.scaledW (croppedH h crop) (croppedW w crop))
    (hcz : F.clampH (F.scaledH (croppedH h crop))
      (F.scaledW (croppedH h crop) (croppedW w crop)) = 0) :
    exceptOk (preprocessResult F h w m b crop k) = false := by
  by_cases hw0 : croppedW w crop = 0
  · simp [preprocessResult, h0, hw0, exceptOk]
  · simp [preprocessResult, h0, hw0, hgt, hcz, exceptOk]

/-- When the clamp branch does not fire and the computed scaled height is
zero, `cv2.resize` raises on an empty destination size. -/
theorem preprocessResult_not_ok_of_sh_zero (F : ScalingFloats) (h w : ℕ) (m : String)
    (b : Bool) (crop : CropSettings) (k : ℤ) (h0 : croppedH h crop ≠ 0)
    (hnc : ¬ 4000 < F.scaledW (croppedH h crop) (croppedW w crop))
    (hshz : F.scaledH (croppedH h crop) = 0) :
    exceptOk (preprocessResult F h w m b crop k) = false := by
  by_cases hw0 : croppedW w crop = 0
  · simp [preprocessResult, h0, hw0, exceptOk]
  · simp [preprocessResult, h0, hw0, hnc, hshz, exceptOk]

/-- A negative opening-kernel size makes `np.ones` raise whenever the crop
height is positive (whatever else happens, the pipeline does not succeed). -/
theorem preprocessResult_not_ok_of_neg_kernel (F : ScalingFloats) (h w : ℕ) (m : String)
    (b : Bool) (crop : CropSettings) (k : ℤ) (h0 : croppedH h crop ≠ 0) (hk : k < 0) :
    exceptOk (preprocessResult F h w m b crop k) = false := by
  simp only [preprocessResult, if_neg h0]
  split_ifs <;> simp_all [exceptOk]

/-! ### The claims -/

/-- C1, counterexample.  The claim says: for every crop leaving a strictly
positive cropped height, the output height equals `target_height = 300`.
But on a `15 × 400` image with zero crop margins (cropped height `15 > 0`)
the scaled width is `8000 > max_w`, the clamp branch fires, and the output
is `150 × 4000`: the height is `150`, not `300`.  At this input every
intermediate IEEE double is exactly representable — `300 / 15 = 20.0`,
`400 · 20.0 = 8000.0`, `15 · 20.0 = 300.0`, `4000 / 8000 = 0.5`,
`300 · 0.5 = 150.0` — so the exact-arithmetic instance coincides with the
program's float evaluation here. -/
theorem c1_scaling_counterexample :
    preprocessResult exactScaling 15 400 "otsu" false (CropSettings.mk 0 0 0 0) 2 =
      Except.ok (PreOut.image 150 4000) ∧
    croppedH 15 (CropSettings.mk 0 0 0 0) = 15 := by
  refine ⟨?_, by decide⟩
  simp [preprocessResult, exactScaling, scaledWidth_eq, scaledHeight_eq, clampedHeight_eq,
    croppedH, croppedW, pySliceLen]

/-- C1, amended.  Whatever values the double-precision scaling arithmetic
produces (the theorem quantifies over every evaluation `F`):
any image the preprocessing outputs is at most `max_width = 4000` wide;
when the computed scaled width is within the cap (and positive, with a
positive computed scaled height and a non-negative kernel size) the output
is exactly the computed `scaled_h × scaled_w` — the height is the float
truncation of `cropped_h · (300 / cropped_h)`, which is not always exactly
`target_height` (CPython gives `299` for cropped height `281`); when the
computed scaled width exceeds the cap the output width is exactly `4000`
and the height is the computed clamped height. -/
theorem c1_scaling_amended (F : ScalingFloats) (h w : ℕ) (m : String) (b : Bool)
    (crop : CropSettings) (k : ℤ) :
    (∀ fh fw : ℕ, preprocessResult F h w m b crop k = Except.ok (PreOut.image fh fw) →
      fw ≤ 4000) ∧
    (croppedH h crop ≠ 0 → croppedW w crop ≠ 0 → 0 ≤ k →
      F.scaledH (croppedH h crop) ≠ 0 →
      1 ≤ F.scaledW (croppedH h crop) (croppedW w crop) →
      F.scaledW (croppedH h crop) (croppedW w crop) ≤ 4000 →
      preprocessResult F h w m b crop k =
        Except.ok (PreOut.image (F.scaledH (croppedH h crop))
          (F.scaledW (croppedH h crop) (croppedW w crop)))) ∧
    (croppedH h crop ≠ 0 → croppedW w crop ≠ 0 → 0 ≤ k →
      4000 < F.scaledW (croppedH h crop) (croppedW w crop) →
      F.clampH (F.scaledH (croppedH h crop))
        (F.scaledW (croppedH h crop) (croppedW w crop)) ≠ 0 →
      preprocessResult F h w m b crop k =
        Except.ok (PreOut.image
          (F.clampH (F.scaledH (croppedH h crop))
            (F.scaledW (croppedH h crop) (croppedW w crop))) 4000)) := by
  refine ⟨?_, ?_, ?_⟩
  · intro fh fw hok
    by_cases h0 : croppedH h crop = 0
    · rw [preprocessResult_of_crop_empty F h w m b crop k h0] at hok
      exact absurd hok (by simp)
    by_cases hkn : k < 0
    · have hne := preprocessResult_not_ok_of_neg_kernel F h w m b crop k h0 hkn
      rw [hok] at hne
      simp [exceptOk] at hne
    by_cases hw0 : croppedW w crop = 0
    · simp [preprocessResult, h0, hw0] at hok
    by_cases hcl : 4000 < F.scaledW (croppedH h crop) (croppedW w crop)
    · by_cases hcz : F.clampH (F.scaledH (croppedH h crop))
          (F.scaledW (croppedH h crop) (croppedW w crop)) = 0
      · have hne := preprocessResult_not_ok_of_clamp_zero F h w m b crop k h0 hcl hcz
        rw [hok] at hne
        simp [exceptOk] at hne
      · rw [preprocessResult_clamp F h w m b crop k h0 hw0 hcl hcz (by omega)] at hok
        simp only [Except.ok.injEq, PreOut.image.injEq] at hok
        omega
    · by_cases hsw0 : F.scaledW (croppedH h crop) (croppedW w crop) = 0
      · have hne := preprocessResult_not_ok_of_sw_zero F h w m b crop k h0 hsw0
        rw [hok] at hne
        simp [exceptOk] at hne
      · by_cases hshz : F.scaledH (croppedH h crop) = 0
        · have hne := preprocessResult_not_ok_of_sh_zero F h w m b crop k h0 hcl hshz
          rw [hok] at hne
          simp [exceptOk] at hne
        · rw [preprocessResult_no_clamp F h w m b crop k h0 hw0 hshz (by omega) (by omega)
            (by omega)] at hok
          simp only [Except.ok.injEq, PreOut.image.injEq] at hok
          omega
  · intro h0 hw0 hk hsh hsw hle
    exact preprocessResult_no_clamp F h w m b crop k h0 hw0 hsh hsw hle hk
  · intro h0 hw0 hk hgt hcz
    exact preprocessResult_clamp F h w m b crop k h0 hw0 hgt hcz hk

/-- C1, witness for the amended theorem: a `10 × 10` image with zero
margins (all doubles exact: `300 / 10 = 30.0`, `10 · 30.0 = 300.0`) comes
out as the computed `scaled_h × scaled_w`, namely `300 × 300`. -/
theorem c1_scaling_amended_witness :
    preprocessResult exactScaling 10 10 "otsu" false (CropSettings.mk 0 0 0 0) 2 =
      Except.ok (PreOut.image
        (exactScaling.scaledH (croppedH 10 (CropSettings.mk 0 0 0 0)))
        (exactScaling.scaledW (croppedH 10 (CropSettings.mk 0 0 0 0))
          (croppedW 10 (CropSettings.mk 0 0 0 0)))) :=
  (c1_scaling_amended exactScaling 10 10 "otsu" false (CropSettings.mk 0 0 0 0) 2).2.1
    (by decide) (by decide) (by decide)
    (by simp [exactScaling, croppedH, pySliceLen, scaledHeight_eq])
    (by simp [exactScaling, croppedH, croppedW, pySliceLen, scaledWidth_eq])
    (by simp [exactScaling, croppedH, croppedW, pySliceLen, scaledWidth_eq])

/-- C2, counterexample.  The claim says preprocessing never raises for a
non-null input.  But a crop that leaves zero columns (left margin `10` on a
`10`-wide image) with a positive cropped height reaches `cv2.resize` with an
empty source image, which raises `cv2.error` — the run aborts instead of
degrading.  The raise comes from the `!ssize.empty()` assertion on the
source image, before any destination size is used, so it does not depend on
the float arithmetic; at this input the doubles are exact anyway
(`300 / 10 = 30.0`, `0 · 30.0 = 0.0`, `10 · 30.0 = 300.0`). -/
theorem c2_no_raise_counterexample :
    preprocessResult exactScaling 10 10 "otsu" false (CropSettings.mk 0 0 10 0) 2 =
      Except.error "cv2.error: resize: empty source image" ∧
    croppedH 10 (CropSettings.mk 0 0 10 0) = 10 ∧
    croppedW 10 (CropSettings.mk 0 0 10 0) = 0 := by
  refine ⟨?_, by decide, by decide⟩
  simp [preprocessResult, exactScaling, scaledWidth_eq, scaledHeight_eq, clampedHeight_eq,
    croppedH, croppedW, pySliceLen]

/-- C2, amended.  For every evaluation `F` of the double-precision scaling
arithmetic (subject to two facts true of IEEE doubles: a zero cropped width
scales to the exact product `0`, and a positive cropped height scales to a
nonzero height, the truncation of a value within rounding error of `300`),
the preprocessing pipeline completes without raising exactly when the
cropped height is zero (early empty-text return), or the computed scaled
width is at least `1`, the computed clamped height is nonzero whenever the
width cap fires, and the opening kernel size is non-negative.  Otherwise
`cv2.resize` (empty source or empty destination size) or `np.ones`
(negative dimensions) raises, instead of degrading to an empty image. -/
theorem c2_no_raise_amended (F : ScalingFloats) (h w : ℕ) (m : String) (b : Bool)
    (crop : CropSettings) (k : ℤ)
    (hzero : ∀ a : ℕ, F.scaledW a 0 = 0)
    (hsh0 : ∀ a : ℕ, a ≠ 0 → F.scaledH a ≠ 0) :
    exceptOk (preprocessResult F h w m b crop k) = true ↔
      (croppedH h crop = 0 ∨
        (1 ≤ F.scaledW (croppedH h crop) (croppedW w crop) ∧
          (4000 < F.scaledW (croppedH h crop) (croppedW w crop) →
            F.clampH (F.scaledH (croppedH h crop))
              (F.scaledW (croppedH h crop) (croppedW w crop)) ≠ 0) ∧
          0 ≤ k)) := by
  constructor
  · intro hok
    by_cases h0 : croppedH h crop = 0
    · exact Or.inl h0
    refine Or.inr ⟨?_, ?_, ?_⟩
    · by_contra hc
      rw [preprocessResult_not_ok_of_sw_zero F h w m b crop k h0 (by omega)] at hok
      exact Bool.false_ne_true hok
    · intro hgt
      by_contra hc
      rw [preprocessResult_not_ok_of_clamp_zero F h w m b crop k h0 hgt
        (by simpa using hc)] at hok
      exact Bool.false_ne_true hok
    · by_contra hc
      rw [preprocessResult_not_ok_of_neg_kernel F h w m b crop k h0 (by omega)] at hok
      exact Bool.false_ne_true hok
  · intro hcond
    by_cases h0 : croppedH h crop = 0
    · rw [preprocessResult_of_crop_empty F h w m b crop k h0]
      rfl
    rcases hcond with h0x | ⟨h1, h2, h3⟩
    · exact absurd h0x h0
    have hw0 : croppedW w crop ≠ 0 := by
      intro hc
      rw [hc, hzero] at h1
      omega
    by_cases hcl : 4000 < F.scaledW (croppedH h crop) (croppedW w crop)
    · rw [preprocessResult_clamp F h w m b crop k h0 hw0 hcl (h2 hcl) h3]
      rfl
    · rw [preprocessResult_no_clamp F h w m b crop k h0 hw0 (hsh0 _ h0) h1 (by omega) h3]
      rfl

/-- C2, witness for the amended theorem: a `10 × 10` image with zero
margins (all doubles exact) preprocesses without raising. -/
theorem c2_no_raise_amended_witness :
    exceptOk (preprocessResult exactScaling 10 10 "otsu" false (CropSettings.mk 0 0 0 0) 2) =
      true :=
  (c2_no_raise_amended exactScaling 10 10 "otsu" false (CropSettings.mk 0 0 0 0) 2
      (fun a => scaledWidth_zero a)
      (fun a ha => by rw [show exactScaling.scaledH a = scaledHeight a from rfl,
        scaledHeight_of_pos a ha]; decide)).mpr
    (Or.inr ⟨by simp [exactScaling, croppedH, croppedW, pySliceLen, scaledWidth_eq],
      fun hcl => absurd hcl
        (by simp [exactScaling, croppedH, croppedW, pySliceLen, scaledWidth_eq]),
      by decide⟩)

/-- C3, counterexample.  The claim says a failure in one region's
preprocess-and-recognize step leaves the other three regions' extraction
intact.  But only the capture loop has a per-region handler; the OCR loop
does not, so when BankCode's pipeline raises the whole run errors — the
other regions' texts (here `"Foo"`, `"12"`, `"Bar"`) are never recorded and
no normalized output is produced. -/
theorem c3_isolation_counterexample :
    captureAndOcrCore (fun _ => some (Img.mk 1 1))
      (fun r _ => match r with
        | Region.BankCode => Except.error "boom"
        | Region.BankName => Except.ok "Foo"
        | Region.BranchCode => Except.ok "12"
        | Region.BranchName => Except.ok "Bar") [] = Except.error "boom" := rfl

/-- If a region's capture is present and its pipeline raises, that region's
extraction step fails for every intermediate result. -/
theorem stepRegion_fails (caps : Region → Option Img) (pl : Region → Img → Except String String)
    (r : Region) (img : Img) (e : String) (h1 : caps r = some img)
    (h2 : pl r img = Except.error e) (res : Region → Option String) :
    stepRegion caps pl r res = Except.error e := by
  simp [stepRegion, h1, h2, Except.map]

/-- C3, amended.  Fault isolation holds for *capture* failures only: a
region with no captured image — whichever of the four it is — is silently
treated as absent (empty field) while the others are extracted and
normalized; but an exception in *any* present region's
preprocess-and-recognize pipeline, first or last in the processing order,
propagates to the top-level handler and aborts the entire run: the final
text is never produced, even for regions already recognized. -/
theorem c3_isolation_amended :
    (∀ (caps : Region → Option Img) (pl : Region → Img → Except String String)
      (corr : List (String × String)) (r : Region) (img : Img) (e : String),
      caps r = some img → pl r img = Except.error e →
      exceptOk (captureAndOcrCore caps pl corr) = false) ∧
    (∀ (f : Region → Img → String) (corr : List (String × String)) (r0 : Region),
      captureAndOcrCore (fun r => if r = r0 then none else some (Img.mk 1 1))
        (fun r i => Except.ok (f r i)) corr =
      Except.ok (normalizeFields
        (fun r => if r = r0 then none else some (f r (Img.mk 1 1))) corr)) := by
  constructor
  · intro caps pl corr r img e h1 h2
    have hstep := stepRegion_fails caps pl r img e h1 h2
    cases r with
    | BankCode =>
      simp [captureAndOcrCore, extractTexts, hstep, Except.map, Except.bind, bind, Bind.bind,
        exceptOk]
    | BankName =>
      rcases hb1 : stepRegion caps pl Region.BankCode (fun _ => none) with e1 | r1
      · simp [captureAndOcrCore, extractTexts, hb1, Except.map, Except.bind, bind, Bind.bind,
          exceptOk]
      · simp [captureAndOcrCore, extractTexts, hb1, hstep, Except.map, Except.bind, bind,
          Bind.bind, exceptOk]
    | BranchCode =>
      rcases hb1 : stepRegion caps pl Region.BankCode (fun _ => none) with e1 | r1
      · simp [captureAndOcrCore, extractTexts, hb1, Except.map, Except.bind, bind, Bind.bind,
          exceptOk]
      · rcases hb2 : stepRegion caps pl Region.BankName r1 with e2 | r2
        · simp [captureAndOcrCore, extractTexts, hb1, hb2, Except.map, Except.bind, bind,
            Bind.bind, exceptOk]
        · simp [captureAndOcrCore, extractTexts, hb1, hb2, hstep, Except.map, Except.bind,
            bind, Bind.bind, exceptOk]
    | BranchName =>
      rcases hb1 : stepRegion caps pl Region.BankCode (fun _ => none) with e1 | r1
      · simp [captureAndOcrCore, extractTexts, hb1, Except.map, Except.bind, bind, Bind.bind,
          exceptOk]
      · rcases hb2 : stepRegion caps pl Region.BankName r1 with e2 | r2
        · simp [captureAndOcrCore, extractTexts, hb1, hb2, Except.map, Except.bind, bind,
            Bind.bind, exceptOk]
        · rcases hb3 : stepRegion caps pl Region.BranchCode r2 with e3 | r3
          · simp [captureAndOcrCore, extractTexts, hb1, hb2, hb3, Except.map, Except.bind,
              bind, Bind.bind, exceptOk]
          · simp [captureAndOcrCore, extractTexts, hb1, hb2, hb3, hstep, Except.map,
              Except.bind, bind, Bind.bind, exceptOk]
  · intro f corr r0
    cases r0 <;> rfl

/-- C3, witness for the amended theorem: a failure in BranchName — the
*last* region in processing order — still makes the whole run fail, even
though the three earlier regions were recognized successfully. -/
theorem c3_isolation_amended_witness :
    exceptOk (captureAndOcrCore (fun _ => some (Img.mk 2 2))
      (fun r _ => match r with
        | Region.BranchName => Except.error "late"
        | _ => Except.ok "t") []) = false :=
  c3_isolation_amended.1 (fun _ => some (Img.mk 2 2))
    (fun r _ => match r with
      | Region.BranchName => Except.error "late"
      | _ => Except.ok "t") [] Region.BranchName (Img.mk 2 2) "late" rfl rfl

/-- C4, confirmed.  The correction pass applies each `(wrong, correct)` pair
in configured order as a literal substring replacement over the whole
assembled line: `[("AB","X"), ("XC","Y")]` on `"ABC"` gives `"Y"` (and the
reversed table gives `"XC"`, so the order matters); a pair can span the
full-width-colon delimiter, as `("1：A","5")` on the assembled
`"1：AB：："` shows. -/
theorem c4_corrections_ordered :
    applyCorrections "ABC" [("AB", "X"), ("XC", "Y")] = "Y" ∧
    applyCorrections "ABC" [("XC", "Y"), ("AB", "X")] = "XC" ∧
    normalizeFields (fun r => match r with
      | Region.BankCode => some "1"
      | Region.BankName => some "AB"
      | _ => none) [("1：A", "5")] = "5B：：" := by
  refine ⟨by decide, by decide, by decide⟩

/-- C5, counterexample.  The claim says the code-field filter keeps exactly
the decimal digits.  The filter is Python's `str.isdigit`, which also keeps
non-decimal digit-type characters: on `"1²3"` the code keeps the superscript
`'²'` (not a decimal digit), yielding `"1²3"` where the claim demands
`"13"`. -/
theorem c5_digit_filter_counterexample :
    digitFilter "1²3" = "1²3" ∧
    ("1²3" : String).data.filter Char.isDigit = ("13" : String).data ∧
    pyIsdigit '²' = true ∧ Char.isDigit '²' = false := by decide

/-- C5, amended.  Normalization of a code field keeps, in order, exactly the
characters accepted by Python's `str.isdigit` — a subsequence of the input
on which every character passes the filter, idempotently; on ASCII input
this coincides with keeping the decimal digits, e.g. `"1 2-3X" → "123"`. -/
theorem c5_digit_filter_amended (s : String) :
    (digitFilter s).data.Sublist s.data ∧
    (digitFilter s).data.all pyIsdigit = true ∧
    digitFilter (digitFilter s) = digitFilter s ∧
    digitFilter "1 2-3X" = "123" := by
  refine ⟨List.filter_sublist _, ?_, digitFilter_idem s, by decide⟩
  rw [List.all_eq_true]
  intro c hc
  exact List.of_mem_filter hc

/-- C5, witness for the amended theorem, at the spec's own example input. -/
theorem c5_digit_filter_amended_witness :
    (digitFilter "1 2-3X").data.all pyIsdigit = true :=
  (c5_digit_filter_amended "1 2-3X").2.1

/-- C6, confirmed.  For every non-null image whose cropped height is zero,
`_preprocess_and_ocr` returns `""` immediately and without raising,
whatever the double-precision scaling arithmetic would have computed (the
early return at line 29 precedes it); the result does not depend on the OCR
oracle, which is therefore never consulted. -/
theorem c6_zero_height_empty (F : ScalingFloats) (h w : ℕ) (m : String) (b : Bool)
    (crop : CropSettings) (k : ℤ) (ocr : ℕ → ℕ → String) (h0 : croppedH h crop = 0) :
    preprocessAndOcr F (some (Img.mk h w)) m b crop k ocr = Except.ok "" ∧
    preprocessResult F h w m b crop k = Except.ok PreOut.emptyText := by
  have he := preprocessResult_of_crop_empty F h w m b crop k h0
  exact ⟨by simp [preprocessAndOcr, he], he⟩

/-- C6, witness: a `5 × 7` image cropped by a top margin of `5` yields an
empty cropped height, and the result is `""` even for a noisy oracle. -/
theorem c6_zero_height_empty_witness :
    preprocessAndOcr exactScaling (some (Img.mk 5 7)) "otsu" true (CropSettings.mk 5 0 0 0) 2
      (fun _ _ => "NOISE") = Except.ok "" :=
  (c6_zero_height_empty exactScaling 5 7 "otsu" true (CropSettings.mk 5 0 0 0) 2
    (fun _ _ => "NOISE") (by decide)).1

/-- C7, confirmed.  A region with no raw text (here BranchName) is treated
as the empty string; normalization never raises (it is a total function)
and all three full-width-colon delimiters are present in the result. -/
theorem c7_missing_field :
    normalizeFields (fun r => match r with
      | Region.BankCode => some "0001"
      | Region.BankName => some "  Example Bank "
      | Region.BranchCode => some "12-3"
      | Region.BranchName => none) [] = "0001：Example Bank：123：" := by decide

/-- C8, confirmed.  With an empty correction table the normalization pass is
idempotent: the digit filter, the field trim and the blank-line strip are
each idempotent, feeding every field's own normalized text back through the
pass reproduces the same final text, and the final text is a fixed point of
the blank-line strip. -/
theorem c8_normalize_idempotent :
    (∀ s : String, digitFilter (digitFilter s) = digitFilter s) ∧
    (∀ s : String, pyStripStr (pyStripStr s) = pyStripStr s) ∧
    (∀ t : String, blankStrip (blankStrip t) = blankStrip t) ∧
    (∀ res : Region → Option String,
      normalizeFields (renormalizedInput res) [] = normalizeFields res []) ∧
    (∀ res : Region → Option String,
      blankStrip (normalizeFields res []) = normalizeFields res []) := by
  refine ⟨digitFilter_idem, pyStripStr_idem, blankStrip_idem, ?_, ?_⟩
  · intro res
    simp [normalizeFields, joinedLine, applyCorrections, renormalizedInput, fieldText,
      fieldNormalize, digitFilter_idem, pyStripStr_idem]
  · intro res
    simp [normalizeFields, blankStrip_idem]

/-- C8, witness: the blank-line strip fixes its own output on a concrete
text with an interior blank line. -/
theorem c8_normalize_idempotent_witness :
    blankStrip (blankStrip "a\n\nb") = blankStrip "a\n\nb" :=
  c8_normalize_idempotent.2.2.1 "a\n\nb"

/-- C9, confirmed.  A correction pair with an empty `wrong` string is not a
no-op: Python `str.replace` inserts the replacement at every character
boundary, so `"ABC".replace("", "-")` gives `"-A-B-C-"`, and in general a
text of length `n` gains `n + 1` copies of the replacement. -/
theorem c9_empty_wrong :
    applyCorrections "ABC" [("", "-")] = "-A-B-C-" ∧
    (∀ t new : List Char,
      (pyReplace t [] new).length = t.length + (t.length + 1) * new.length) := by
  refine ⟨by decide, ?_⟩
  intro t new
  simp [pyReplace, insertEach_length]
  ring

/-- C9, witness: the general length formula at a concrete text and
replacement. -/
theorem c9_empty_wrong_witness :
    (pyReplace ("ab" : String).data [] ("xy" : String).data).length =
      ("ab" : String).data.length + (("ab" : String).data.length + 1) *
        ("xy" : String).data.length :=
  c9_empty_wrong.2 ("ab" : String).data ("xy" : String).data

/-- C10, confirmed.  With all four raw texts empty or absent (and no
corrections) the result is exactly the three-delimiter line `"：：："`: the
full-width colon is not whitespace, so the blank-line filter keeps the
line. -/
theorem c10_all_empty :
    normalizeFields (fun _ => none) [] = "：：：" ∧
    normalizeFields (fun _ => some "") [] = "：：：" ∧
    lineKeep ("：：：" : String).data = true ∧
    pyIsspace '：' = false := by decide

end GetbankCode
